import Mathlib

/-!
# Verification of the APPV3 core: transport framing, message router, mode detection

Shallow embedding of the relevant parts of the repository:
* `utils/trade_mode.py` — mode detection and the debounced mode-switch check;
* `core/message_router.py` — the `MessageRouter` handlers (Blinker-signal path
  and the `route()` path), the mode-precedence gate, the balance / position /
  order routing and the phantom-position filter;
* `services/dtc_json_client.py` — the framed-socket transport (`_rx_loop`
  framing, `_send`, `close`).

Python strings are embedded as `List Char`; timestamps in milliseconds as
`Int`; monetary values and prices as `ℚ`; byte streams as `List Nat` with the
delimiter byte `0`.  Effects visible to consumers (panel hooks, Qt signals)
are modelled as an ordered event list returned next to the new state.
-/

/-- Python strings, embedded as lists of characters. -/
abbrev PyStr := List Char

/-- Convert a Lean string literal to the `PyStr` embedding. -/
def pys (s : String) : PyStr := s.toList

/-- Python `str.strip()`: remove leading and trailing whitespace
(the accounts handled by this system are ASCII, where `Char.isWhitespace`
agrees with Python's notion of whitespace). -/
def pyStrip (s : PyStr) : PyStr :=
  ((s.dropWhile Char.isWhitespace).reverse.dropWhile Char.isWhitespace).reverse

/-- Python `str.startswith(p)` on the embedding. -/
def pyStartsWith : PyStr → PyStr → Bool
  | [], _ => true
  | _ :: _, [] => false
  | c :: p, d :: s => c = d && pyStartsWith p s

/-- Python `a or b` for optional numeric values: `a` if it is present and
truthy (non-zero), otherwise `b`. -/
def pyOrQ (a b : Option ℚ) : Option ℚ :=
  match a with
  | some x => if x = 0 then b else some x
  | none => b

/-- Python `a or b or ""` for strings: the first non-empty of `a`, `b`,
else the empty string. -/
def pyOrS (a b : PyStr) : PyStr :=
  if a ≠ [] then a else b

/-! ## `utils/trade_mode.py` -/

/-- Constant `DEBOUNCE_WINDOW_MS = 750` from `utils/trade_mode.py`. -/
def DEBOUNCE_WINDOW_MS : Int := 750

/-- Constant `REQUIRED_CONSECUTIVE = 2` from `utils/trade_mode.py`. -/
def REQUIRED_CONSECUTIVE : Nat := 2

/-- Modelled from the spec: `config/settings.py` (the `LIVE_ACCOUNT`
configuration value read by `_get_live_account`) is not under `src/`; the
spec (§8) names `"120005"` as the configured LIVE account. -/
def LIVE_ACCOUNT : PyStr := pys "120005"

/-- Embedding of `detect_mode_from_account` (`utils/trade_mode.py:63-102`), parametrised by
the configured LIVE account.  The source returns `"DEBUG"` for a falsy or
non-string account, strips the account, returns `"DEBUG"` if the stripped
account is empty, `"LIVE"` if the configured live account is non-empty and
equals the stripped account, `"SIM"` if the stripped account starts with
`"Sim"`, and `"DEBUG"` otherwise. -/
def detect_mode_from_account (live : PyStr) (account : PyStr) : String :=
  if pyStrip account = [] then "DEBUG"
  else
    let a := pyStrip account
    if live ≠ [] ∧ a = live then "LIVE"
    else if pyStartsWith (pys "Sim") a then "SIM"
    else "DEBUG"

/-- The function `detect_mode_from_account` applied to the configured LIVE
account, as the router calls it. -/
def detectR (account : PyStr) : String :=
  detect_mode_from_account LIVE_ACCOUNT account

/-- Embedding of `should_switch_mode` (`utils/trade_mode.py:105-145`): false for a falsy
or whitespace-only account; false for a zero position quantity when
`require_active_position` holds; true otherwise. -/
def should_switch_mode (account : PyStr) (qty : Option Int)
    (requireActive : Bool := true) : Bool :=
  if pyStrip account = [] then false
  else if qty.isSome && requireActive && (qty == some 0) then false
  else true

/-- One element of the module-level `_mode_candidates` deque:
`(timestamp_ms, mode, account)`. -/
abbrev Cand := Int × String × PyStr

/-- Embedding of `deque(maxlen=10).append`: append on the right, dropping from the left
when the capacity of 10 is exceeded. -/
def appendBounded (q : List Cand) (c : Cand) : List Cand :=
  let q' := q ++ [c]
  if 10 < q'.length then q'.drop (q'.length - 10) else q'

/-- The pruning loop of `should_switch_mode_debounced`: pop entries from the
front while their timestamp is strictly below `now - DEBOUNCE_WINDOW_MS`. -/
def pruneOld (now : Int) (q : List Cand) : List Cand :=
  q.dropWhile (fun c => decide (c.1 < now - DEBOUNCE_WINDOW_MS))

/-- Embedding of `should_switch_mode_debounced` (`utils/trade_mode.py:148-199`).  The
module-global deque is threaded explicitly: the call takes the current queue
and returns the result together with the queue after the call.  `now` is the
millisecond timestamp `time.time() * 1000` of the call; `current_mode` is the
optional current mode, with `""` standing for a falsy value. -/
def should_switch_mode_debounced (live : PyStr) (q : List Cand) (now : Int)
    (account : PyStr) (current_mode : String) (qty : Option Int) :
    Bool × List Cand :=
  if ¬ should_switch_mode account qty then (false, q)
  else
    let new_mode := detect_mode_from_account live account
    if current_mode ≠ "" ∧ new_mode = current_mode then (false, q)
    else
      let q1 := pruneOld now (appendBounded q (now, new_mode, account))
      if REQUIRED_CONSECUTIVE ≤ q1.length ∧
          (q1.drop (q1.length - REQUIRED_CONSECUTIVE)).all
            (fun c => decide (c.2.1 = new_mode) && decide (c.2.2 = account)) then
        (true, [])
      else (false, q1)

/-! ## Messages

The normalized message payloads the router handles.  Absent dictionary keys
are `none`; `.get(key, default)` chains are expanded at the use sites. -/

/-- An `ORDER_UPDATE` payload.  `tradeAccount` is `msg.get("TradeAccount", "")`
(`[]` for an absent key); `orderStatus` is `msg.get("OrderStatus")`; `tag`
stands for the rest of the payload, which the router forwards opaquely. -/
structure OrderMsg where
  tradeAccount : PyStr
  orderStatus : Option Int
  tag : Nat
deriving DecidableEq

/-- A `POSITION_UPDATE` payload: `symbol`, `qty`, `PositionQuantity`,
`avg_entry` and `TradeAccount` fields as the router reads them. -/
structure PositionMsg where
  symbol : PyStr
  qty : Option Int
  positionQuantity : Option Int
  avg_entry : Option ℚ
  tradeAccount : PyStr
deriving DecidableEq

/-- A `BALANCE_UPDATE` payload: `balance`, `CashBalance`, `AccountValue`,
`account` and `TradeAccount` fields as the router reads them (absent string
keys are `[]`). -/
structure BalanceMsg where
  balance : Option ℚ
  cashBalance : Option ℚ
  accountValue : Option ℚ
  accountF : PyStr
  tradeAccountF : PyStr
deriving DecidableEq

/-! ## Session state

`core/state_manager.py` (class `StateManager`) is not under `src/`; its
record and the operations the router invokes on it are modelled from the
spec (§3 Session State, §4.3 precedence gate, §4.4). -/

/-- Association-list update: replace the value at the first occurrence of the
key, or append the binding. -/
def updAssoc {α β : Type} [DecidableEq α] : List (α × β) → α → β → List (α × β)
  | [], k, v => [(k, v)]
  | (k', v') :: rest, k, v =>
    if k' = k then (k', v) :: rest else (k', v') :: updAssoc rest k v

/-- Association-list lookup. -/
def getAssoc {α β : Type} [DecidableEq α] : List (α × β) → α → Option β
  | [], _ => none
  | (k', v') :: rest, k => if k' = k then some v' else getAssoc rest k

/-- Association-list removal of a key. -/
def delAssoc {α β : Type} [DecidableEq α] : List (α × β) → α → List (α × β)
  | [], _ => []
  | (k', v') :: rest, k =>
    if k' = k then rest else (k', v') :: delAssoc rest k

/-- Modelled from the spec: precedence order `LIVE > SIM > DEBUG` (§3 Mode);
`core/state_manager.py` is not under `src/`. -/
def modePrecedence (m : String) : Nat :=
  if m = "LIVE" then 2 else if m = "SIM" then 1 else 0

/-- Modelled from the spec: the Session State record owned by the router
(§3) — current mode and account, the per-mode balance map, the last reported
balance, the per-symbol open-position map, the recorded orders, and the
modes under which an open position is currently recorded (used by the
precedence gate, §4.3).  `core/state_manager.py` is not under `src/`. -/
structure SessionState where
  current_mode : String
  current_account : PyStr
  balances : List (String × ℚ)
  lastBalance : Option ℚ
  positions : List (PyStr × Int × Option ℚ)
  orders : List OrderMsg
  openPositionModes : List String
deriving DecidableEq

/-- Modelled from the spec: `StateManager.set_balance_for_mode` stores a
balance in the per-mode balance map (§4.4 "it updates Session State's
per-mode balance map"). -/
def SessionState.set_balance_for_mode (s : SessionState) (m : String) (v : ℚ) :
    SessionState :=
  { s with balances := updAssoc s.balances m v }

/-- Modelled from the spec: read a mode's slot of the per-mode balance map. -/
def SessionState.get_balance_for_mode (s : SessionState) (m : String) :
    Option ℚ :=
  getAssoc s.balances m

/-- Modelled from the spec: `StateManager.update_balance` stores the last
reported balance ("store all balances", `_on_balance_update`). -/
def SessionState.update_balance (s : SessionState) (v : Option ℚ) :
    SessionState :=
  { s with lastBalance := v }

/-- Modelled from the spec: `StateManager.update_position` — a zero quantity
clears the symbol's entry of the per-symbol open-position map (§4.4 "a
position update with zero quantity is treated as a close and clears any
per-symbol open-position entry"), otherwise the entry is replaced. -/
def SessionState.update_position (s : SessionState) (sym : PyStr) (qty : Int)
    (avg : Option ℚ) : SessionState :=
  if qty = 0 then { s with positions := delAssoc s.positions sym }
  else { s with positions := updAssoc s.positions sym (qty, avg) }

/-- Modelled from the spec: `StateManager.is_mode_blocked` — a mode is
blocked iff Session State currently records an open position under a
strictly higher-precedence mode (§4.3 precedence gate). -/
def SessionState.is_mode_blocked (s : SessionState) (m : String) : Bool :=
  s.openPositionModes.any (fun p => decide (modePrecedence m < modePrecedence p))

/-- Modelled from the spec: `StateManager.record_order` records the order
payload ("store in state manager for persistence and analytics"). -/
def SessionState.record_order (s : SessionState) (o : OrderMsg) : SessionState :=
  { s with orders := o :: s.orders }

/-! ## Router state and consumer-visible events -/

/-- The three registered GUI panels (`panel_balance`, `panel_live`,
`panel_stats`). -/
inductive Panel
  | balance
  | live
  | stats
deriving DecidableEq

/-- A consumer-visible effect of a router handler, in dispatch order.
`marshal_to_qt_thread` (whose module is not under `src/`) hands the call to
the Qt thread; it is modelled as the direct invocation of the hook, which is
what both its success path and the handler's direct-call fallback do. -/
inductive Ev
  | setTradingMode (p : Panel) (mode : String) (account : PyStr)
  | onOrderUpdate (m : OrderMsg)
  | onPositionUpdate (m : PositionMsg)
  | tradeLogPosition (m : PositionMsg)
  | registerOrderEvent (m : OrderMsg)
  | setAccountBalance (v : Option ℚ)
  | updateEquitySeries (v : Option ℚ) (mode : Option String)
  | modeChanged (mode : String)
deriving DecidableEq

/-- The mutable attributes of a `MessageRouter` instance together with the
module-global debounce queue: `_current_mode`, `_current_account`, `state`
(`None` when no `StateManager` was wired), the `_mode_candidates` deque, and
which panels are registered (a registered panel is a `Panel1`/`Panel2`/
`Panel3` instance carrying the hooks the router probes with `hasattr`). -/
structure RouterState where
  currentMode : String
  currentAccount : PyStr
  session : Option SessionState
  candidates : List Cand
  panelBalance : Bool
  panelLive : Bool
  panelStats : Bool
deriving DecidableEq

/-! ## `core/message_router.py` -/

/-- Embedding of `MessageRouter._check_mode_precedence` (`core/message_router.py:622-648`):
allow everything without a state manager; always allow `"LIVE"`; reject a
mode the state manager reports as blocked. -/
def MessageRouter.checkModePrecedence (session : Option SessionState)
    (requested : String) : Bool :=
  match session with
  | none => true
  | some s =>
    if requested = "LIVE" then true
    else if s.is_mode_blocked requested then false
    else true

/-- The `set_trading_mode` broadcast performed when a detected switch
commits: `panel_balance`, then `panel_live`, then `panel_stats`, each if
registered. -/
def broadcastMode (w : RouterState) (mode : String) (account : PyStr) :
    List Ev :=
  (if w.panelBalance then [Ev.setTradingMode .balance mode account] else [])
    ++ (if w.panelLive then [Ev.setTradingMode .live mode account] else [])
    ++ (if w.panelStats then [Ev.setTradingMode .stats mode account] else [])

/-- The order-payload routing of `_on_order_signal`: forward to
`panel_live.on_order_update` when the live panel is registered. -/
def orderRoute (w : RouterState) (msg : OrderMsg) : List Ev :=
  if w.panelLive then [Ev.onOrderUpdate msg] else []

/-- The position-payload routing of `_on_position_signal`: forward to
`panel_live.on_position_update` when the live panel is registered. -/
def positionRoute (w : RouterState) (msg : PositionMsg) : List Ev :=
  if w.panelLive then [Ev.onPositionUpdate msg] else []

/-- Embedding of `MessageRouter._on_order_signal` (`core/message_router.py:189-271`).
The drift check and the order-fill summary only log, so they contribute no
events.  When the debounced check commits a switch and the precedence gate
(with a state manager present) rejects the detected mode, the handler
returns before any routing; when the gate passes, the mode broadcast is
dispatched and `_current_mode` / `_current_account` are updated before the
payload is forwarded to `panel_live.on_order_update`. -/
def MessageRouter.onOrderSignal (w : RouterState) (now : Int) (msg : OrderMsg) :
    RouterState × List Ev :=
  let account := msg.tradeAccount
  if account = [] then (w, orderRoute w msg)
  else
    let r := should_switch_mode_debounced LIVE_ACCOUNT w.candidates now account
      w.currentMode none
    let w1 := { w with candidates := r.2 }
    if r.1 then
      let detected := detectR account
      if w.session.isSome ∧
          MessageRouter.checkModePrecedence w.session detected = false then
        (w1, [])
      else
        ({ w1 with currentMode := detected, currentAccount := account },
         broadcastMode w detected account ++ orderRoute w msg)
    else (w1, orderRoute w msg)

/-- Embedding of `MessageRouter._on_position_signal` (`core/message_router.py:273-338`).
`qty` is `msg.get("qty", msg.get("PositionQuantity", 0))`; the switch logic
runs only for a non-zero quantity and a non-empty account, with the same
gate-reject early return as the order handler; the payload is always
forwarded to `panel_live.on_position_update` otherwise. -/
def MessageRouter.onPositionSignal (w : RouterState) (now : Int)
    (msg : PositionMsg) : RouterState × List Ev :=
  let qty := (msg.qty.orElse (fun _ => msg.positionQuantity)).getD 0
  if qty ≠ 0 then
    let account := msg.tradeAccount
    if account ≠ [] then
      let r := should_switch_mode_debounced LIVE_ACCOUNT w.candidates now
        account w.currentMode (some qty)
      let w1 := { w with candidates := r.2 }
      if r.1 then
        let detected := detectR account
        if w.session.isSome ∧
            MessageRouter.checkModePrecedence w.session detected = false then
          (w1, [])
        else
          ({ w1 with currentMode := detected, currentAccount := account },
           broadcastMode w detected account ++ positionRoute w msg)
      else (w1, positionRoute w msg)
    else (w, positionRoute w msg)
  else (w, positionRoute w msg)

/-- Embedding of `MessageRouter._on_balance_signal` (`core/message_router.py:340-410`).
`balance_value` is `msg.get("balance") or msg.get("CashBalance") or
msg.get("AccountValue")`; the mode is detected from the account (defaulting
to `"SIM"` for an empty account); a `"SIM"` balance is skipped entirely;
otherwise the per-mode balance map is updated and, when the mode equals the
state manager's current mode, `_update_balance_ui` invokes
`set_account_balance` and `update_equity_series_from_balance` on
`panel_balance`. -/
def MessageRouter.onBalanceSignal (w : RouterState) (msg : BalanceMsg) :
    RouterState × List Ev :=
  let bv := pyOrQ msg.balance (pyOrQ msg.cashBalance msg.accountValue)
  let account := pyOrS msg.accountF msg.tradeAccountF
  match bv with
  | none => (w, [])
  | some v =>
    let mode := if account ≠ [] then detectR account else "SIM"
    if mode = "SIM" then (w, [])
    else
      match w.session with
      | none => (w, [])
      | some s =>
        let s2 := s.set_balance_for_mode mode v
        let w1 := { w with session := some s2 }
        if w.panelBalance ∧ mode = s2.current_mode then
          (w1, [Ev.setAccountBalance (some v),
                Ev.updateEquitySeries (some v) (some mode)])
        else (w1, [])

/-- Embedding of `MessageRouter._on_balance_update` (`core/message_router.py:491-519`),
the `route()`-path balance handler.  The state manager stores the raw
balance and the per-mode slot for the detected mode; the UI is updated only
when the detected mode equals the current mode.  With a detected mode and an
absent balance value, `float(None)` raises after `update_balance`; `route()`
catches the exception, so the handler stops there with nothing dispatched. -/
def MessageRouter.onBalanceUpdate (w : RouterState) (p : BalanceMsg) :
    RouterState × List Ev :=
  let bal := p.balance
  let account := pyOrS p.accountF p.tradeAccountF
  let mode : Option String := if account ≠ [] then some (detectR account) else none
  match w.session with
  | none => (w, [])
  | some s =>
    let s1 := s.update_balance bal
    match mode with
    | some m =>
      match bal with
      | none => ({ w with session := some s1 }, [])
      | some v =>
        let s2 := s1.set_balance_for_mode m v
        let w1 := { w with session := some s2 }
        if w.panelBalance then
          if m ≠ s2.current_mode then (w1, [])
          else (w1, [Ev.setAccountBalance bal, Ev.updateEquitySeries bal mode])
        else (w1, [])
    | none =>
      let w1 := { w with session := some s1 }
      if w.panelBalance then
        (w1, [Ev.setAccountBalance bal, Ev.updateEquitySeries bal mode])
      else (w1, [])

/-- The table `PHANTOM_POSITIONS` (`core/message_router.py:550-552`): the configured
phantom-position table, symbol to (quantity, average price). -/
def PHANTOM_POSITIONS : List (PyStr × Int × ℚ) :=
  [(pys "F.US.MESM25", 1, (5996.5 : ℚ))]

/-- Embedding of `MessageRouter._on_position_update` (`core/message_router.py:521-580`),
the `route()`-path position handler: a zero quantity clears the state
entry; a missing or zero average price is dropped as stale; a payload
matching a phantom entry is dropped; otherwise the payload goes to
`panel_live.on_position_update`, the trade manager, and the state
manager's position map. -/
def MessageRouter.onPositionUpdate (w : RouterState) (p : PositionMsg) :
    RouterState × List Ev :=
  let sym := p.symbol
  let qty := p.qty.getD 0
  let avg := p.avg_entry
  if qty = 0 then
    ({ w with session := w.session.map (fun s => s.update_position sym 0 none) },
     [])
  else if avg = none ∨ avg = some 0 then (w, [])
  else
    let deliver : RouterState × List Ev :=
      ({ w with session := w.session.map (fun s => s.update_position sym qty avg) },
       positionRoute w p ++ [Ev.tradeLogPosition p])
    match getAssoc PHANTOM_POSITIONS sym with
    | some pv => if qty = pv.1 ∧ avg = some pv.2 then (w, []) else deliver
    | none => deliver

/-- Embedding of `MessageRouter._on_order_update` (`core/message_router.py:582-619`), the
`route()`-path order handler: for a non-empty account whose detected mode
differs from the state manager's current mode, `current_mode` is set
immediately and `modeChanged` is emitted — with no debounce and no
precedence gate; the payload then goes to `panel_live`, `panel_stats`, and
`record_order`. -/
def MessageRouter.onOrderUpdate (w : RouterState) (p : OrderMsg) :
    RouterState × List Ev :=
  let account := p.tradeAccount
  let step1 : Option SessionState × List Ev :=
    if account ≠ [] then
      match w.session with
      | some s =>
        let om := detectR account
        if om ≠ s.current_mode then
          (some { s with current_mode := om }, [Ev.modeChanged om])
        else (some s, [])
      | none => (none, [])
    else (w.session, [])
  ({ w with session := step1.1.map (fun s => s.record_order p) },
   step1.2 ++ (if w.panelLive then [Ev.onOrderUpdate p] else [])
     ++ (if w.panelStats then [Ev.registerOrderEvent p] else []))

/-- A normalized `AppMessage` as fed to `route()`.  The `TRADE_ACCOUNT` and
market-data kinds are not relevant to any verified property; `other` stands
for them and for unhandled kinds (which only log). -/
inductive AppMsg
  | balance (p : BalanceMsg)
  | position (p : PositionMsg)
  | order (p : OrderMsg)
  | other (mtype : String)

/-- Embedding of `MessageRouter.route` (`core/message_router.py:447-465`): dispatch on
the message type through the `_handlers` table; handler exceptions are
caught and logged. -/
def MessageRouter.route (w : RouterState) (m : AppMsg) : RouterState × List Ev :=
  match m with
  | .balance p => MessageRouter.onBalanceUpdate w p
  | .position p => MessageRouter.onPositionUpdate w p
  | .order p => MessageRouter.onOrderUpdate w p
  | .other _ => (w, [])

/-! ## `services/dtc_json_client.py` — transport

Byte streams are `List Nat`; the frame delimiter is the byte `0` (`NULL`).
The receive loop (`_rx_loop`, lines 324-377) accumulates bytes in `_rx_buf`
and, while a delimiter is present, strips the prefix before it as one raw
frame; empty frames are skipped; a frame is decoded with `json.loads` and
dispatched, with decode and dispatch exceptions caught per frame. -/

/-- The buffer-splitting loop of `_rx_loop`: `acc` is the (reversed) prefix
of the current frame accumulated so far; a delimiter byte emits the frame
and restarts; bytes after the last delimiter stay in the buffer and are
never emitted. -/
def rxSpansAux : List Nat → List Nat → List (List Nat)
  | _, [] => []
  | acc, b :: rest =>
    if b = 0 then acc.reverse :: rxSpansAux [] rest
    else rxSpansAux (b :: acc) rest

/-- The delimiter-terminated raw frames of a byte stream, in order. -/
def rxSpans (stream : List Nat) : List (List Nat) :=
  rxSpansAux [] stream

/-- The receive loop over a byte stream, as a function of the decoder: each
non-empty delimiter-terminated raw frame is decoded; a frame whose decode
fails is dropped and the loop continues; the successfully decoded messages
are dispatched in order.  (`if not raw: continue` skips empty frames.) -/
def rxProcess {α : Type} (decode : List Nat → Option α) (stream : List Nat) :
    List α :=
  ((rxSpans stream).filter (fun f => ¬ f.isEmpty)).filterMap decode

/-- The receive loop with the exception behaviour made explicit: the decoder
and the dispatcher (`_dispatch_for_panels` / `on_msg`) may fail; a decode
failure is logged and the frame dropped (`continue`); a dispatch failure is
caught (`except Exception`) after the message has been handed over, and the
loop continues either way.  Returns the messages handed to dispatch. -/
def rxProcessD {α : Type} (decode : List Nat → Except String α)
    (dispatch : α → Except String Unit) (stream : List Nat) : List α :=
  ((rxSpans stream).filter (fun f => ¬ f.isEmpty)).filterMap
    (fun f =>
      match decode f with
      | .error _ => none
      | .ok m =>
        match dispatch m with
        | .error _ => some m
        | .ok _ => some m)

/-- A decoder standing for `json.loads ∘ bytes.decode`, restricted to the byte strings this
development evaluates it at: the two-byte object literal `0x7b 0x7d`
(`json.loads` accepts it and yields the empty object, numbered `1` here)
decodes; every other byte string used below — in particular
`0x78 0x7b 0x7d`, i.e. the literal preceded by the garbage byte `x`, on
which `json.loads` raises `JSONDecodeError` — does not. -/
def jsonDecodeObj (s : List Nat) : Option Nat :=
  if s = [123, 125] then some 1 else none

/-- The observable outcome of one `DTCClientJSON._send` call
(`services/dtc_json_client.py:269-322`): whether the serialized message was
fully written to the socket, whether a diagnostic `error(...)` record was
written, and whether the call raised into its caller. -/
structure SendOutcome where
  wrote : Bool
  errorLogged : Bool
  raised : Bool
deriving DecidableEq

/-- Embedding of `DTCClientJSON._send` as a function of the failure shape of the call:
`sockOpen` — `self.sock` is set; `serializeOk` — `json.dumps` succeeds;
`writeOk` — `sock.sendall` does not raise; `debugNetwork` —
`settings.DEBUG_NETWORK`.  No branch raises: the no-socket branch `return`s
(logging only under `DEBUG_NETWORK`), the serialization branch catches
`(TypeError, ValueError)` and `return`s, and the write branch catches
`OSError` / `Exception` and falls off the end. -/
def sendModel (sockOpen serializeOk writeOk debugNetwork : Bool) : SendOutcome :=
  if ¬ sockOpen then
    { wrote := false, errorLogged := debugNetwork, raised := false }
  else if ¬ serializeOk then
    { wrote := false, errorLogged := true, raised := false }
  else if ¬ writeOk then
    { wrote := false, errorLogged := true, raised := false }
  else
    { wrote := true, errorLogged := false, raised := false }

/-- The client state `close()` touches (`services/dtc_json_client.py:252-267`):
whether `self.sock` is set, the `_stop` flag, whether a diagnostic logger
and an `on_disconnected` callback are wired. -/
structure ClientState where
  sockOpen : Bool
  stop : Bool
  hasDiagLogger : Bool
  hasOnDisconnected : Bool
deriving DecidableEq

/-- The observable effects of one `close()` call: socket shutdown/close
(only when a socket was set), `diagnostic_logger.close()`, and the
`on_disconnected` callback. -/
structure CloseEffects where
  sockShutdown : Bool
  sockClosed : Bool
  loggerClosed : Bool
  disconnectCbInvoked : Bool
deriving DecidableEq

/-- Embedding of `DTCClientJSON.close`: set `_stop`, shut down and close the socket if
one is set, clear `self.sock`, and — on every call — close the diagnostic
logger if wired and invoke `on_disconnected` if wired (neither reference is
cleared, so repeated calls repeat both). -/
def closeModel (s : ClientState) : ClientState × CloseEffects :=
  ({ sockOpen := false, stop := true, hasDiagLogger := s.hasDiagLogger,
     hasOnDisconnected := s.hasOnDisconnected },
   { sockShutdown := s.sockOpen, sockClosed := s.sockOpen,
     loggerClosed := s.hasDiagLogger,
     disconnectCbInvoked := s.hasOnDisconnected })

/-- The queue of `should_switch_mode_debounced` after the append and the
prune of one call: the candidate `(now, detected mode, account)` is appended
and entries older than the debounce window are pruned from the front. -/
def debouncePostQueue (live : PyStr) (q : List Cand) (now : Int)
    (acct : PyStr) : List Cand :=
  pruneOld now (appendBounded q (now, detect_mode_from_account live acct, acct))

/-! ## Sample states for concrete runs -/

/-- A session in LIVE mode with balances recorded for both modes and no open
position. -/
def liveSession : SessionState :=
  { current_mode := "LIVE", current_account := pys "120005",
    balances := [("SIM", 50), ("LIVE", 200)], lastBalance := none,
    positions := [], orders := [], openPositionModes := [] }

/-- A session in LIVE mode that records an open position under LIVE. -/
def blockedSession : SessionState :=
  { current_mode := "LIVE", current_account := pys "120005",
    balances := [], lastBalance := none,
    positions := [(pys "F.US.MESM25", 2, some 6000)], orders := [],
    openPositionModes := ["LIVE"] }

/-- The startup session: mode DEBUG, empty account. -/
def debugSession : SessionState :=
  { current_mode := "DEBUG", current_account := [],
    balances := [], lastBalance := none, positions := [], orders := [],
    openPositionModes := [] }

/-- A router with all three panels registered. -/
def mkRouter (mode : String) (acct : PyStr) (sess : Option SessionState)
    (cands : List Cand) : RouterState :=
  { currentMode := mode, currentAccount := acct, session := sess,
    candidates := cands, panelBalance := true, panelLive := true,
    panelStats := true }

/-- The byte stream of delimiter-terminated frames followed by trailing
bytes: `f₁ ++ [0] ++ f₂ ++ [0] ++ … ++ fₙ ++ [0] ++ garbage`. -/
def mkStream (frames : List (List Nat)) (garbage : List Nat) : List Nat :=
  frames.foldr (fun f acc => f ++ 0 :: acc) garbage

/-! ## Helper lemmas -/

theorem pyStartsWith_iff (p s : PyStr) :
    pyStartsWith p s = true ↔ ∃ t, s = p ++ t := by
  induction p generalizing s with
  | nil =>
    simp only [pyStartsWith, List.nil_append]
    exact ⟨fun _ => ⟨s, rfl⟩, fun _ => trivial⟩
  | cons c p ih =>
    cases s with
    | nil =>
      simp only [pyStartsWith]
      constructor
      · intro h; exact absurd h (by simp)
      · rintro ⟨t, ht⟩; exact absurd ht (by simp)
    | cons d s =>
      simp only [pyStartsWith, Bool.and_eq_true, decide_eq_true_eq, ih]
      constructor
      · rintro ⟨rfl, t, rfl⟩; exact ⟨t, rfl⟩
      · rintro ⟨t, ht⟩
        injection ht with h1 h2
        exact ⟨h1.symm, t, h2⟩

theorem dropWhile_eq_self_of_all (f : Char → Bool) (l : PyStr)
    (h : ∀ c ∈ l, f c = false) : l.dropWhile f = l := by
  cases l with
  | nil => rfl
  | cons c l =>
    rw [List.dropWhile_cons, h c (by simp)]
    simp

/-- A non-empty, whitespace-free prefix of a string is still a prefix after
`str.strip()`. -/
theorem pyStartsWith_pyStrip (p s : PyStr) (hp : pyStartsWith p s = true)
    (hne : p ≠ []) (hws : ∀ c ∈ p, c.isWhitespace = false) :
    pyStartsWith p (pyStrip s) = true := by
  obtain ⟨t, rfl⟩ := (pyStartsWith_iff p s).mp hp
  obtain ⟨c, p', rfl⟩ : ∃ c p', p = c :: p' := by
    cases p with
    | nil => exact absurd rfl hne
    | cons c p' => exact ⟨c, p', rfl⟩
  rw [pyStartsWith_iff]
  unfold pyStrip
  have h1 : ((c :: p') ++ t).dropWhile Char.isWhitespace = (c :: p') ++ t := by
    rw [List.cons_append, List.dropWhile_cons, hws c (by simp)]
    simp
  rw [h1, List.reverse_append, List.dropWhile_append]
  by_cases hcase : ((t.reverse).dropWhile Char.isWhitespace).isEmpty
  · rw [if_pos hcase,
      dropWhile_eq_self_of_all _ _
        (by intro x hx; exact hws x (by rw [List.mem_reverse] at hx; exact hx))]
    exact ⟨[], by simp⟩
  · rw [if_neg hcase]
    refine ⟨((t.reverse).dropWhile Char.isWhitespace).reverse, ?_⟩
    rw [List.reverse_append]
    simp

theorem getAssoc_updAssoc_self {α β : Type} [DecidableEq α]
    (l : List (α × β)) (k : α) (v : β) :
    getAssoc (updAssoc l k v) k = some v := by
  induction l with
  | nil => simp [updAssoc, getAssoc]
  | cons hd tl ih =>
    by_cases h : hd.1 = k
    · simp [updAssoc, getAssoc, h]
    · cases hd with
      | mk k' v' =>
        simp only [updAssoc, getAssoc] at *
        rw [if_neg h, getAssoc, if_neg h]
        exact ih

theorem filterMap_length_of_all_isSome {α β : Type} (f : α → Option β)
    (l : List α) (h : ∀ x ∈ l, (f x).isSome) :
    (l.filterMap f).length = l.length := by
  induction l with
  | nil => rfl
  | cons x xs ih =>
    have hx := h x (by simp)
    obtain ⟨y, hy⟩ := Option.isSome_iff_exists.mp hx
    rw [List.filterMap_cons, hy, List.length_cons, List.length_cons,
      ih (fun z hz => h z (by simp [hz]))]

/-- Branch-explicit form of `should_switch_mode_debounced`. -/
theorem ssmd_eq (live : PyStr) (q : List Cand) (now : Int) (acct : PyStr)
    (cur : String) (qty : Option Int) :
    should_switch_mode_debounced live q now acct cur qty =
      if ¬ should_switch_mode acct qty then (false, q)
      else if cur ≠ "" ∧ detect_mode_from_account live acct = cur then (false, q)
      else if REQUIRED_CONSECUTIVE ≤ (debouncePostQueue live q now acct).length
          ∧ ((debouncePostQueue live q now acct).drop
              ((debouncePostQueue live q now acct).length - REQUIRED_CONSECUTIVE)).all
            (fun c => decide (c.2.1 = detect_mode_from_account live acct)
              && decide (c.2.2 = acct)) = true then (true, [])
      else (false, debouncePostQueue live q now acct) := rfl

/-! ## Theorems -/

/-- A debounced call that returns `true` returns exactly `(true, [])`: the
queue is cleared. -/
theorem ssmd_true_eq (live : PyStr) (q : List Cand) (now : Int) (acct : PyStr)
    (cur : String) (qty : Option Int)
    (hb : (should_switch_mode_debounced live q now acct cur qty).1 = true) :
    should_switch_mode_debounced live q now acct cur qty = (true, []) := by
  rw [ssmd_eq] at hb ⊢
  split_ifs at hb ⊢
  simp_all

/-- A debounced call that returns `true` found the last
`REQUIRED_CONSECUTIVE` entries of the appended-and-pruned queue agreeing
with the new candidate's mode and account. -/
theorem ssmd_true_cond (live : PyStr) (q : List Cand) (now : Int) (acct : PyStr)
    (cur : String) (qty : Option Int)
    (hb : (should_switch_mode_debounced live q now acct cur qty).1 = true) :
    REQUIRED_CONSECUTIVE ≤ (debouncePostQueue live q now acct).length
      ∧ ((debouncePostQueue live q now acct).drop
          ((debouncePostQueue live q now acct).length - REQUIRED_CONSECUTIVE)).all
        (fun c => decide (c.2.1 = detect_mode_from_account live acct)
          && decide (c.2.2 = acct)) = true := by
  rw [ssmd_eq] at hb
  split_ifs at hb with h1 h2 h3
  exact h3

/-- Writing a mode's balance slot makes that slot readable back. -/
theorem get_set_balance (s : SessionState) (m : String) (v : ℚ) :
    (s.set_balance_for_mode m v).get_balance_for_mode m = some v := by
  simp only [SessionState.set_balance_for_mode, SessionState.get_balance_for_mode]
  exact getAssoc_updAssoc_self s.balances m v

/-- Both `set_balance_for_mode` and `update_balance` leave `current_mode`
unchanged. -/
theorem set_balance_current_mode (s : SessionState) (m : String) (v : ℚ) :
    (s.set_balance_for_mode m v).current_mode = s.current_mode := rfl

/-- **C4** — counterexample to the claim as stated.  The account
`" 120005"` (a leading space before the configured LIVE identifier) is
non-empty, is distinct from the configured LIVE-account identifier, and does
not start with the prefix `"Sim"`; the claim's case chain therefore puts it
in the final "every other account" case, requiring `DEBUG` — but
`detect_mode_from_account` strips whitespace before classifying, and
returns `LIVE`. -/
theorem C4_counterexample :
    pys " 120005" ≠ ([] : PyStr)
      ∧ pys " 120005" ≠ LIVE_ACCOUNT
      ∧ pyStartsWith (pys "Sim") (pys " 120005") = false
      ∧ detect_mode_from_account LIVE_ACCOUNT (pys " 120005") = "LIVE" := by
  refine ⟨by decide, by decide, by decide, by decide⟩

/-- **C4** (amended) — `detect_mode_from_account` is a pure, total function
over strings that classifies the *whitespace-stripped* account: the spec's
five test vectors hold; a whitespace-only account maps to `DEBUG`; an
account equal to a non-empty, already-stripped configured LIVE identifier
maps to `LIVE`; an account starting with the literal prefix `"Sim"` and not
stripping to the LIVE identifier maps to `SIM`; every other account (one
whose stripped form is non-empty, differs from the LIVE identifier, and
does not start with `"Sim"`) maps to `DEBUG`. -/
theorem C4_theorem :
    (detectR (pys "") = "DEBUG" ∧ detectR (pys "120005") = "LIVE"
      ∧ detectR (pys "Sim1") = "SIM" ∧ detectR (pys "Sim2") = "SIM"
      ∧ detectR (pys "Unknown123") = "DEBUG")
    ∧ (∀ live acct, pyStrip acct = [] →
        detect_mode_from_account live acct = "DEBUG")
    ∧ (∀ live acct, live ≠ [] → pyStrip live = live → acct = live →
        detect_mode_from_account live acct = "LIVE")
    ∧ (∀ live acct, pyStartsWith (pys "Sim") acct = true →
        pyStrip acct ≠ live → detect_mode_from_account live acct = "SIM")
    ∧ (∀ live acct, pyStrip acct ≠ [] → pyStrip acct ≠ live →
        pyStartsWith (pys "Sim") (pyStrip acct) = false →
        detect_mode_from_account live acct = "DEBUG") := by
  refine ⟨⟨by decide, by decide, by decide, by decide, by decide⟩, ?_, ?_, ?_, ?_⟩
  · intro live acct h
    simp [detect_mode_from_account, h]
  · intro live acct hlive hstrip heq
    subst heq
    simp only [detect_mode_from_account]
    rw [hstrip, if_neg hlive, if_pos ⟨hlive, rfl⟩]
  · intro live acct hpre hne
    have hs : pyStartsWith (pys "Sim") (pyStrip acct) = true :=
      pyStartsWith_pyStrip _ _ hpre (by decide) (by decide)
    have hnn : pyStrip acct ≠ [] := by
      intro h
      rw [h] at hs
      exact absurd hs (by decide)
    simp only [detect_mode_from_account, if_neg hnn]
    rw [if_neg (by exact fun hc => hne hc.2), if_pos hs]
  · intro live acct hnn hne hpre
    simp only [detect_mode_from_account, if_neg hnn]
    rw [if_neg (by exact fun hc => hne hc.2), if_neg (by simp [hpre])]

/-- **C4** — witness: the amended theorem applied at concrete inputs. -/
theorem C4_witness :
    detect_mode_from_account (pys "77777") (pys "77777") = "LIVE"
      ∧ detect_mode_from_account (pys "120005") (pys "Sim1 ") = "SIM" := by
  exact ⟨C4_theorem.2.2.1 (pys "77777") (pys "77777") (by decide) (by decide) rfl,
    C4_theorem.2.2.2.1 (pys "120005") (pys "Sim1 ") (by decide) (by decide)⟩

/-- **C3** — confirmed.  `should_switch_mode_debounced` returns `true` only
when, after appending the `(timestamp, mode, account)` candidate and pruning
entries older than 750 ms from the front, the most recent
`REQUIRED_CONSECUTIVE = 2` entries agree on both mode and account, and in
that case the queue is cleared.  In particular, starting from an empty
queue, two calls within 750 ms proposing `("SIM", "Sim1")` against
`current_mode = "LIVE"` return `False` then `True`, and a call made more
than 750 ms after a single prior proposal returns `False` (leaving only the
new candidate queued). -/
theorem C3_theorem :
    (∀ live q now acct cur qty,
      (should_switch_mode_debounced live q now acct cur qty).1 = true →
        REQUIRED_CONSECUTIVE ≤ (debouncePostQueue live q now acct).length
          ∧ (∃ m a, ∀ c ∈ (debouncePostQueue live q now acct).drop
              ((debouncePostQueue live q now acct).length - REQUIRED_CONSECUTIVE),
              c.2.1 = m ∧ c.2.2 = a)
          ∧ (should_switch_mode_debounced live q now acct cur qty).2 = [])
    ∧ (∀ t1 t2 : Int, t1 ≤ t2 → t2 - t1 ≤ 750 →
        should_switch_mode_debounced LIVE_ACCOUNT [] t1 (pys "Sim1") "LIVE" none
            = (false, [(t1, "SIM", pys "Sim1")])
          ∧ should_switch_mode_debounced LIVE_ACCOUNT [(t1, "SIM", pys "Sim1")]
              t2 (pys "Sim1") "LIVE" none = (true, []))
    ∧ (∀ t1 t3 : Int, 750 < t3 - t1 →
        should_switch_mode_debounced LIVE_ACCOUNT [(t1, "SIM", pys "Sim1")]
            t3 (pys "Sim1") "LIVE" none = (false, [(t3, "SIM", pys "Sim1")])) := by
  refine ⟨?_, ?_, ?_⟩
  · intro live q now acct cur qty hb
    have hcond := ssmd_true_cond live q now acct cur qty hb
    refine ⟨hcond.1, ⟨detect_mode_from_account live acct, acct, ?_⟩, ?_⟩
    · intro c hc
      have h := List.all_eq_true.mp hcond.2 c hc
      simp only [Bool.and_eq_true, decide_eq_true_eq] at h
      exact h
    · rw [ssmd_true_eq live q now acct cur qty hb]
  · intro t1 t2 h12 hwin
    have hq1 : debouncePostQueue LIVE_ACCOUNT [] t1 (pys "Sim1")
        = [(t1, "SIM", pys "Sim1")] := by
      unfold debouncePostQueue appendBounded pruneOld
      rw [show detect_mode_from_account LIVE_ACCOUNT (pys "Sim1") = "SIM" from by decide]
      simp only [List.nil_append, List.length_cons, List.length_nil]
      rw [if_neg (by norm_num), List.dropWhile_cons,
        decide_eq_false (by simp only [DEBOUNCE_WINDOW_MS]; omega :
          ¬ (t1 < t1 - DEBOUNCE_WINDOW_MS))]
      simp
    have hq2 : debouncePostQueue LIVE_ACCOUNT [(t1, "SIM", pys "Sim1")] t2
        (pys "Sim1") = [(t1, "SIM", pys "Sim1"), (t2, "SIM", pys "Sim1")] := by
      unfold debouncePostQueue appendBounded pruneOld
      rw [show detect_mode_from_account LIVE_ACCOUNT (pys "Sim1") = "SIM" from by decide]
      simp only [List.cons_append, List.nil_append, List.length_cons,
        List.length_nil]
      rw [if_neg (by norm_num), List.dropWhile_cons,
        decide_eq_false (by simp only [DEBOUNCE_WINDOW_MS]; omega :
          ¬ (t1 < t2 - DEBOUNCE_WINDOW_MS))]
      simp
    constructor
    · rw [ssmd_eq, if_neg (by decide), if_neg (by decide), hq1]
      rw [if_neg (by
        rintro ⟨hlen, -⟩
        simp only [REQUIRED_CONSECUTIVE, List.length_cons, List.length_nil] at hlen
        omega)]
    · have hdet : detect_mode_from_account LIVE_ACCOUNT (pys "Sim1") = "SIM" := by
        decide
      rw [ssmd_eq, if_neg (by decide), if_neg (by decide), hq2]
      rw [if_pos ⟨by simp [REQUIRED_CONSECUTIVE], by simp [REQUIRED_CONSECUTIVE, hdet]⟩]
  · intro t1 t3 hgap
    have hq3 : debouncePostQueue LIVE_ACCOUNT [(t1, "SIM", pys "Sim1")] t3
        (pys "Sim1") = [(t3, "SIM", pys "Sim1")] := by
      unfold debouncePostQueue appendBounded pruneOld
      rw [show detect_mode_from_account LIVE_ACCOUNT (pys "Sim1") = "SIM" from by decide]
      simp only [List.cons_append, List.nil_append, List.length_cons,
        List.length_nil]
      rw [if_neg (by norm_num), List.dropWhile_cons,
        decide_eq_true (by simp only [DEBOUNCE_WINDOW_MS]; omega :
          t1 < t3 - DEBOUNCE_WINDOW_MS)]
      rw [if_pos rfl, List.dropWhile_cons,
        decide_eq_false (by simp only [DEBOUNCE_WINDOW_MS]; omega :
          ¬ (t3 < t3 - DEBOUNCE_WINDOW_MS))]
      simp
    rw [ssmd_eq, if_neg (by decide), if_neg (by decide), hq3]
    rw [if_neg (by
      rintro ⟨hlen, -⟩
      simp only [REQUIRED_CONSECUTIVE, List.length_cons, List.length_nil] at hlen
      omega)]

/-- **C3** — witness: the theorem applied at concrete timestamps. -/
theorem C3_witness :
    should_switch_mode_debounced LIVE_ACCOUNT [] 0 (pys "Sim1") "LIVE" none
        = (false, [(0, "SIM", pys "Sim1")])
      ∧ should_switch_mode_debounced LIVE_ACCOUNT [(0, "SIM", pys "Sim1")] 500
          (pys "Sim1") "LIVE" none = (true, [])
      ∧ should_switch_mode_debounced LIVE_ACCOUNT [(0, "SIM", pys "Sim1")] 800
          (pys "Sim1") "LIVE" none = (false, [(800, "SIM", pys "Sim1")]) := by
  have h := C3_theorem.2.1 0 500 (by omega) (by omega)
  exact ⟨h.1, h.2, C3_theorem.2.2 0 800 (by omega)⟩

/-- **C2** — confirmed (the blocked-mode test `is_mode_blocked` lives in
`core/state_manager.py`, which is not under `src/`, and is modelled from the
spec's precedence rule).  A switch into `"LIVE"` is never rejected by
`_check_mode_precedence`; a switch into a non-LIVE mode is rejected when the
session records an open position under a strictly higher-precedence mode;
and when the gate rejects inside `_on_order_signal`, the handler returns
with no consumer-visible event — in particular the order payload is not
routed — and `_current_mode` / `_current_account` are untouched (only the
debounce queue advances). -/
theorem C2_theorem :
    (∀ session : Option SessionState,
      MessageRouter.checkModePrecedence session "LIVE" = true)
    ∧ (∀ (s : SessionState) (m : String), m ≠ "LIVE" →
        (∃ p ∈ s.openPositionModes, modePrecedence m < modePrecedence p) →
        MessageRouter.checkModePrecedence (some s) m = false)
    ∧ (∀ (w : RouterState) (now : Int) (msg : OrderMsg) (q' : List Cand),
        msg.tradeAccount ≠ [] →
        should_switch_mode_debounced LIVE_ACCOUNT w.candidates now
          msg.tradeAccount w.currentMode none = (true, q') →
        w.session.isSome = true →
        MessageRouter.checkModePrecedence w.session (detectR msg.tradeAccount)
          = false →
        MessageRouter.onOrderSignal w now msg
          = ({ w with candidates := q' }, [])) := by
  refine ⟨?_, ?_, ?_⟩
  · intro session
    cases session with
    | none => rfl
    | some s => simp [MessageRouter.checkModePrecedence]
  · intro s m hm hpos
    have hblocked : s.is_mode_blocked m = true := by
      rw [SessionState.is_mode_blocked, List.any_eq_true]
      obtain ⟨p, hp, hlt⟩ := hpos
      exact ⟨p, hp, by simpa using hlt⟩
    simp only [MessageRouter.checkModePrecedence]
    rw [if_neg hm, if_pos hblocked]
  · intro w now msg q' hacct hssmd hsess hgate
    simp only [MessageRouter.onOrderSignal]
    rw [if_neg hacct]
    simp [hssmd, hsess, hgate]

/-- From an empty debounce queue, one call can never commit a switch: after
the append and prune at most one entry is queued, below
`REQUIRED_CONSECUTIVE`. -/
theorem ssmd_from_empty_false (live : PyStr) (now : Int) (acct : PyStr)
    (cur : String) (qty : Option Int) :
    (should_switch_mode_debounced live [] now acct cur qty).1 = false := by
  rw [ssmd_eq]
  split_ifs with h1 h2 h3
  · rfl
  · exfalso
    have hlen : (debouncePostQueue live [] now acct).length ≤ 1 := by
      have := (List.dropWhile_sublist
        (l := appendBounded [] (now, detect_mode_from_account live acct, acct))
        (fun c => decide (c.1 < now - DEBOUNCE_WINDOW_MS))).length_le
      simpa [debouncePostQueue, pruneOld, appendBounded] using this
    have hge := h3.1
    simp only [REQUIRED_CONSECUTIVE] at hge
    omega
  · rfl
  · rfl

/-- **C2** — witness: with an open LIVE position recorded, a debounce-ready
switch to SIM triggered by an order for `"Sim1"` is rejected: the handler
emits nothing and leaves mode and account untouched. -/
theorem C2_witness :
    MessageRouter.onOrderSignal
        (mkRouter "LIVE" (pys "120005") (some blockedSession)
          [(0, "SIM", pys "Sim1")]) 100
        { tradeAccount := pys "Sim1", orderStatus := none, tag := 0 }
      = ({ mkRouter "LIVE" (pys "120005") (some blockedSession)
            [(0, "SIM", pys "Sim1")] with candidates := [] }, []) := by
  exact C2_theorem.2.2
    (mkRouter "LIVE" (pys "120005") (some blockedSession) [(0, "SIM", pys "Sim1")])
    100 { tradeAccount := pys "Sim1", orderStatus := none, tag := 0 } []
    (by decide) (by decide) (by decide) (by decide)

/-- **C6** — counterexample to the claim as stated.  An order for the
configured LIVE account `"120005"` arriving while `current_mode = DEBUG`
with the debounce queue in its startup (empty) state does *not* commit a
mode switch: `should_switch_mode_debounced` only queues the first candidate
and returns `False`, so the handler dispatches no `setTradingMode` at all —
it forwards only the order payload — and `_current_mode` stays `"DEBUG"`. -/
theorem C6_counterexample :
    MessageRouter.onOrderSignal (mkRouter "DEBUG" [] (some debugSession) []) 0
        { tradeAccount := pys "120005", orderStatus := none, tag := 1 }
      = ({ mkRouter "DEBUG" [] (some debugSession) [] with
            candidates := [(0, "LIVE", pys "120005")] },
         [Ev.onOrderUpdate
            { tradeAccount := pys "120005", orderStatus := none, tag := 1 }]) := by
  decide

/-- **C6** (amended) — an order for the LIVE account arriving while the
debounce queue is empty never commits a switch on that single order: no
`setTradingMode` is dispatched and `_current_mode` / `_current_account` are
unchanged (orders bypass only the quantity gating of the debounce, not its
two-agreeing-signals requirement).  When the debounced check does commit
(e.g. on the second agreeing order inside the window) and the precedence
gate does not reject, `set_trading_mode(detected, account)` is dispatched to
every registered panel *before* the order payload is forwarded to
`panel_live.on_order_update`, and the router's mode and account are
updated. -/
theorem C6_theorem :
    (∀ (w : RouterState) (now : Int) (msg : OrderMsg), w.candidates = [] →
      (MessageRouter.onOrderSignal w now msg).1.currentMode = w.currentMode
        ∧ (MessageRouter.onOrderSignal w now msg).1.currentAccount
            = w.currentAccount
        ∧ ∀ p m a, Ev.setTradingMode p m a ∉ (MessageRouter.onOrderSignal w now msg).2)
    ∧ (∀ (w : RouterState) (now : Int) (msg : OrderMsg) (q' : List Cand),
        msg.tradeAccount ≠ [] →
        should_switch_mode_debounced LIVE_ACCOUNT w.candidates now
          msg.tradeAccount w.currentMode none = (true, q') →
        ¬ (w.session.isSome = true ∧
            MessageRouter.checkModePrecedence w.session (detectR msg.tradeAccount)
              = false) →
        MessageRouter.onOrderSignal w now msg
          = ({ w with
                currentMode := detectR msg.tradeAccount
                currentAccount := msg.tradeAccount
                candidates := q' },
             broadcastMode w (detectR msg.tradeAccount) msg.tradeAccount
               ++ orderRoute w msg)) := by
  constructor
  · intro w now msg hcand
    by_cases hacct : msg.tradeAccount = []
    · simp only [MessageRouter.onOrderSignal, if_pos hacct]
      refine ⟨trivial, trivial, ?_⟩
      intro p m a
      simp only [orderRoute]
      by_cases hl : w.panelLive
      · simp [hl]
      · simp [hl]
    · have hfalse : (should_switch_mode_debounced LIVE_ACCOUNT w.candidates now
          msg.tradeAccount w.currentMode none).1 = false := by
        rw [hcand]
        exact ssmd_from_empty_false LIVE_ACCOUNT now msg.tradeAccount
          w.currentMode none
      simp only [MessageRouter.onOrderSignal, if_neg hacct, hfalse,
        Bool.false_eq_true, if_false]
      refine ⟨trivial, trivial, ?_⟩
      intro p m a
      simp only [orderRoute]
      by_cases hl : w.panelLive
      · simp [hl]
      · simp [hl]
  · intro w now msg q' hacct hssmd hng
    simp only [MessageRouter.onOrderSignal, if_neg hacct, hssmd]
    rw [if_pos trivial, if_neg hng]

/-- **C6** — witness: with one agreeing LIVE candidate already queued inside
the window, the second order for `"120005"` commits the switch and the
three `setTradingMode` dispatches precede the `on_order_update` delivery. -/
theorem C6_witness :
    MessageRouter.onOrderSignal
        (mkRouter "DEBUG" [] (some debugSession) [(0, "LIVE", pys "120005")]) 100
        { tradeAccount := pys "120005", orderStatus := none, tag := 1 }
      = ({ mkRouter "DEBUG" [] (some debugSession) [(0, "LIVE", pys "120005")] with
            currentMode := detectR (pys "120005")
            currentAccount := pys "120005"
            candidates := [] },
         broadcastMode
             (mkRouter "DEBUG" [] (some debugSession) [(0, "LIVE", pys "120005")])
             (detectR (pys "120005")) (pys "120005")
           ++ orderRoute
             (mkRouter "DEBUG" [] (some debugSession) [(0, "LIVE", pys "120005")])
             { tradeAccount := pys "120005", orderStatus := none, tag := 1 }) := by
  exact C6_theorem.2
    (mkRouter "DEBUG" [] (some debugSession) [(0, "LIVE", pys "120005")]) 100
    { tradeAccount := pys "120005", orderStatus := none, tag := 1 } []
    (by decide) (by decide) (by decide)

/-- **C10** — confirmed (Session State is modelled from the spec, since
`core/state_manager.py` is not under `src/`).  On the `route()` entry point,
an `ORDER_UPDATE` payload with a non-empty `TradeAccount` whose detected
mode differs from the session's current mode sets `current_mode` to the
detected mode immediately and unconditionally: the conclusion holds for
*every* session state — including one recording an open higher-precedence
position, i.e. the precedence gate is never consulted — and the debounce
queue is left untouched. -/
theorem C10_theorem :
    ∀ (w : RouterState) (msg : OrderMsg) (s : SessionState),
      w.session = some s → msg.tradeAccount ≠ [] →
      detectR msg.tradeAccount ≠ s.current_mode →
      ((MessageRouter.route w (AppMsg.order msg)).1.session.map
          (fun t => t.current_mode)) = some (detectR msg.tradeAccount)
        ∧ (MessageRouter.route w (AppMsg.order msg)).1.candidates = w.candidates
        ∧ Ev.modeChanged (detectR msg.tradeAccount)
            ∈ (MessageRouter.route w (AppMsg.order msg)).2 := by
  intro w msg s hsess hacct hdiff
  simp [MessageRouter.route, MessageRouter.onOrderUpdate, hsess, hacct, hdiff,
    SessionState.record_order]

/-- **C10** — witness: an order for the LIVE account received over `route()`
while the session is in DEBUG mode *and* records an open LIVE position
switches `current_mode` to LIVE at once, with no debounce and no gate. -/
theorem C10_witness :
    ((MessageRouter.route
        (mkRouter "DEBUG" [] (some { debugSession with openPositionModes := ["LIVE"] })
          [(5, "SIM", pys "SimX")])
        (AppMsg.order { tradeAccount := pys "120005", orderStatus := none, tag := 2 })).1.session.map
          (fun t => t.current_mode)) = some (detectR (pys "120005"))
      ∧ (MessageRouter.route
          (mkRouter "DEBUG" [] (some { debugSession with openPositionModes := ["LIVE"] })
            [(5, "SIM", pys "SimX")])
          (AppMsg.order { tradeAccount := pys "120005", orderStatus := none, tag := 2 })).1.candidates
          = (mkRouter "DEBUG" [] (some { debugSession with openPositionModes := ["LIVE"] })
              [(5, "SIM", pys "SimX")]).candidates
      ∧ Ev.modeChanged (detectR (pys "120005"))
          ∈ (MessageRouter.route
              (mkRouter "DEBUG" [] (some { debugSession with openPositionModes := ["LIVE"] })
                [(5, "SIM", pys "SimX")])
              (AppMsg.order { tradeAccount := pys "120005", orderStatus := none, tag := 2 })).2 := by
  exact C10_theorem
    (mkRouter "DEBUG" [] (some { debugSession with openPositionModes := ["LIVE"] })
      [(5, "SIM", pys "SimX")])
    { tradeAccount := pys "120005", orderStatus := none, tag := 2 }
    { debugSession with openPositionModes := ["LIVE"] }
    rfl (by decide) (by decide)

/-- **C7** — counterexample to the claim as stated.  A position update that
exactly matches the configured phantom entry
`("F.US.MESM25", 1, 5996.5)` but arrives on the Blinker-signal path
(`_on_position_signal`) *is* delivered to `panel_live.on_position_update`:
that handler applies no phantom filter. -/
theorem C7_counterexample :
    MessageRouter.onPositionSignal
        (mkRouter "LIVE" (pys "120005") (some liveSession) []) 0
        { symbol := pys "F.US.MESM25", qty := some 1, positionQuantity := none,
          avg_entry := some (5996.5 : ℚ), tradeAccount := [] }
      = (mkRouter "LIVE" (pys "120005") (some liveSession) [],
         [Ev.onPositionUpdate
            { symbol := pys "F.US.MESM25", qty := some 1, positionQuantity := none,
              avg_entry := some (5996.5 : ℚ), tradeAccount := [] }]) := by
  rfl

/-- **C7** (amended) — on the `route()` path, a position update whose
(symbol, quantity, reference price) exactly matches a configured
phantom-position entry (with the entry's quantity and price non-zero, as the
configured entry's are) is dropped: no consumer receives it and the router
state — Session State's position map included — is left unchanged.  The
Blinker-signal path performs no phantom filtering: it forwards every
position payload to `panel_live.on_position_update` (shown here for a
payload with no account, which skips the mode-switch logic). -/
theorem C7_theorem :
    (∀ (w : RouterState) (p : PositionMsg) (pq : Int) (pa : ℚ),
      getAssoc PHANTOM_POSITIONS p.symbol = some (pq, pa) →
      p.qty.getD 0 = pq → pq ≠ 0 → p.avg_entry = some pa → pa ≠ 0 →
      MessageRouter.onPositionUpdate w p = (w, []))
    ∧ (∀ (w : RouterState) (now : Int) (p : PositionMsg),
        w.panelLive = true → p.tradeAccount = [] →
        MessageRouter.onPositionSignal w now p
          = (w, [Ev.onPositionUpdate p])) := by
  constructor
  · intro w p pq pa hlook hq hpq havg hpa
    simp only [MessageRouter.onPositionUpdate, hq, hlook, havg]
    rw [if_neg hpq, if_neg (by simp [hpa]), if_pos (by simp)]
  · intro w now p hlive hacct
    by_cases hq : (p.qty.orElse (fun _ => p.positionQuantity)).getD 0 ≠ 0
    · simp [MessageRouter.onPositionSignal, hq, hacct, positionRoute, hlive]
    · simp [MessageRouter.onPositionSignal, hq, positionRoute, hlive]

/-- **C7** — witness: the route-path phantom drop at the configured entry. -/
theorem C7_witness :
    MessageRouter.onPositionUpdate
        (mkRouter "LIVE" (pys "120005") (some liveSession) [])
        { symbol := pys "F.US.MESM25", qty := some 1, positionQuantity := none,
          avg_entry := some (5996.5 : ℚ), tradeAccount := pys "120005" }
      = (mkRouter "LIVE" (pys "120005") (some liveSession) [], []) := by
  exact C7_theorem.1 (mkRouter "LIVE" (pys "120005") (some liveSession) [])
    { symbol := pys "F.US.MESM25", qty := some 1, positionQuantity := none,
      avg_entry := some (5996.5 : ℚ), tradeAccount := pys "120005" }
    1 (5996.5 : ℚ) rfl rfl (by decide) rfl (by norm_num)

/-- **C1** — counterexample to the claim as stated.  A balance update for
account `"Sim1"` (detected mode `SIM`) received on the Blinker-signal path
while the session's current mode is `LIVE` is dropped *entirely*: the
handler returns before touching Session State, so the SIM slot of the
per-mode balance map keeps its old value `50` instead of the reported
`100` — the claim's "updates the per-mode balance map … for that mode"
fails (no render hook is invoked, as the claim also says). -/
theorem C1_counterexample :
    detectR (pys "Sim1") = "SIM"
      ∧ liveSession.current_mode = "LIVE"
      ∧ liveSession.get_balance_for_mode "SIM" = some 50
      ∧ MessageRouter.onBalanceSignal
          (mkRouter "LIVE" (pys "120005") (some liveSession) [])
          { balance := some 100, cashBalance := none, accountValue := none,
            accountF := pys "Sim1", tradeAccountF := [] }
        = (mkRouter "LIVE" (pys "120005") (some liveSession) [], []) := by
  refine ⟨by decide, by decide, by decide, by decide⟩

/-- **C1** (amended) — for every balance update carrying an account whose
detected mode differs from the session's current mode, no consumer
balance-render hook (`set_account_balance` /
`update_equity_series_from_balance`) is invoked.  On the `route()` path
(`_on_balance_update`) the per-mode balance map is updated for the detected
mode unconditionally.  On the Blinker-signal path (`_on_balance_signal`) a
balance whose detected mode is `SIM` (including the empty-account default)
is dropped without any state update; for a non-SIM detected mode the map is
updated and the hook fires only when the mode equals the current mode. -/
theorem C1_theorem :
    (∀ (w : RouterState) (p : BalanceMsg) (s : SessionState) (v : ℚ),
      w.session = some s →
      pyOrS p.accountF p.tradeAccountF ≠ [] →
      p.balance = some v →
      ((MessageRouter.onBalanceUpdate w p).1.session.map
          (fun t => t.get_balance_for_mode
            (detectR (pyOrS p.accountF p.tradeAccountF)))) = some (some v)
        ∧ (detectR (pyOrS p.accountF p.tradeAccountF) ≠ s.current_mode →
            (MessageRouter.onBalanceUpdate w p).2 = []))
    ∧ (∀ (w : RouterState) (msg : BalanceMsg) (v : ℚ),
        pyOrQ msg.balance (pyOrQ msg.cashBalance msg.accountValue) = some v →
        (pyOrS msg.accountF msg.tradeAccountF = []
          ∨ detectR (pyOrS msg.accountF msg.tradeAccountF) = "SIM") →
        MessageRouter.onBalanceSignal w msg = (w, []))
    ∧ (∀ (w : RouterState) (msg : BalanceMsg) (s : SessionState) (v : ℚ),
        w.session = some s →
        pyOrQ msg.balance (pyOrQ msg.cashBalance msg.accountValue) = some v →
        pyOrS msg.accountF msg.tradeAccountF ≠ [] →
        detectR (pyOrS msg.accountF msg.tradeAccountF) ≠ "SIM" →
        ((MessageRouter.onBalanceSignal w msg).1.session.map
            (fun t => t.get_balance_for_mode
              (detectR (pyOrS msg.accountF msg.tradeAccountF)))) = some (some v)
          ∧ (detectR (pyOrS msg.accountF msg.tradeAccountF) ≠ s.current_mode →
              (MessageRouter.onBalanceSignal w msg).2 = [])) := by
  refine ⟨?_, ?_, ?_⟩
  · intro w p s v hsess hacct hbal
    constructor
    · simp only [MessageRouter.onBalanceUpdate, hsess, hbal, if_pos hacct]
      by_cases hpb : w.panelBalance
      · by_cases hmode : detectR (pyOrS p.accountF p.tradeAccountF)
            ≠ ((s.update_balance (some v)).set_balance_for_mode
              (detectR (pyOrS p.accountF p.tradeAccountF)) v).current_mode
        · rw [if_pos hpb, if_pos hmode]
          simp [get_set_balance]
        · rw [if_pos hpb, if_neg hmode]
          simp [get_set_balance]
      · rw [if_neg hpb]
        simp [get_set_balance]
    · intro hdiff
      simp only [MessageRouter.onBalanceUpdate, hsess, hbal, if_pos hacct]
      by_cases hpb : w.panelBalance
      · rw [if_pos hpb, if_pos (show detectR (pyOrS p.accountF p.tradeAccountF)
            ≠ ((s.update_balance (some v)).set_balance_for_mode
              (detectR (pyOrS p.accountF p.tradeAccountF)) v).current_mode
            from hdiff)]
      · rw [if_neg hpb]
  · intro w msg v hbv hdrop
    simp only [MessageRouter.onBalanceSignal, hbv]
    rcases hdrop with h | h
    · rw [if_pos (by simp [h])]
    · by_cases hacct : pyOrS msg.accountF msg.tradeAccountF = []
      · rw [if_pos (by simp [hacct])]
      · rw [if_pos (by simp [hacct, h])]
  · intro w msg s v hsess hbv hacct hsim
    constructor
    · simp only [MessageRouter.onBalanceSignal, hbv, hsess, if_pos hacct]
      rw [if_neg hsim]
      by_cases hcond : w.panelBalance = true
          ∧ detectR (pyOrS msg.accountF msg.tradeAccountF)
            = (s.set_balance_for_mode
                (detectR (pyOrS msg.accountF msg.tradeAccountF)) v).current_mode
      · rw [if_pos hcond]
        simp [get_set_balance]
      · rw [if_neg hcond]
        simp [get_set_balance]
    · intro hdiff
      simp only [MessageRouter.onBalanceSignal, hbv, hsess, if_pos hacct]
      rw [if_neg hsim]
      rw [if_neg (by
        rintro ⟨-, hmode⟩
        exact hdiff (by
          simpa [SessionState.set_balance_for_mode] using hmode))]

/-- **C1** — witness: the amended theorem at concrete inputs — a LIVE-mode
session receiving a `"Sim1"` balance over `route()` updates the SIM slot
and renders nothing; the same session receiving a DEBUG-account balance
over the signal path updates the DEBUG slot and renders nothing. -/
theorem C1_witness :
    ((MessageRouter.onBalanceUpdate
        (mkRouter "LIVE" (pys "120005") (some liveSession) [])
        { balance := some 75, cashBalance := none, accountValue := none,
          accountF := pys "Sim1", tradeAccountF := [] }).1.session.map
        (fun t => t.get_balance_for_mode (detectR (pyOrS (pys "Sim1") []))))
        = some (some 75)
      ∧ (MessageRouter.onBalanceUpdate
          (mkRouter "LIVE" (pys "120005") (some liveSession) [])
          { balance := some 75, cashBalance := none, accountValue := none,
            accountF := pys "Sim1", tradeAccountF := [] }).2 = []
      ∧ (MessageRouter.onBalanceSignal
          (mkRouter "LIVE" (pys "120005") (some liveSession) [])
          { balance := some 33, cashBalance := none, accountValue := none,
            accountF := pys "77777", tradeAccountF := [] }).2 = [] := by
  have hA := C1_theorem.1
    (mkRouter "LIVE" (pys "120005") (some liveSession) [])
    { balance := some 75, cashBalance := none, accountValue := none,
      accountF := pys "Sim1", tradeAccountF := [] }
    liveSession 75 rfl (by decide) rfl
  have hC := C1_theorem.2.2
    (mkRouter "LIVE" (pys "120005") (some liveSession) [])
    { balance := some 33, cashBalance := none, accountValue := none,
      accountF := pys "77777", tradeAccountF := [] }
    liveSession 33 rfl (by decide) (by decide) (by decide)
  exact ⟨hA.1, hA.2 (by decide), hC.2 (by decide)⟩

theorem rxSpansAux_no_delim (acc g : List Nat) (hg : (0 : Nat) ∉ g) :
    rxSpansAux acc g = [] := by
  induction g generalizing acc with
  | nil => rfl
  | cons b rest ih =>
    have hb : b ≠ 0 := by
      intro h
      exact hg (by simp [h])
    simp only [rxSpansAux, if_neg hb]
    exact ih _ (fun h => hg (by simp [h]))

theorem rxSpansAux_frame (acc f rest : List Nat) (hf : (0 : Nat) ∉ f) :
    rxSpansAux acc (f ++ 0 :: rest)
      = (acc.reverse ++ f) :: rxSpansAux [] rest := by
  induction f generalizing acc with
  | nil => simp [rxSpansAux]
  | cons b f' ih =>
    have hb : b ≠ 0 := by
      intro h
      exact hf (by simp [h])
    simp only [List.cons_append, rxSpansAux, if_neg hb]
    show rxSpansAux (b :: acc) (f' ++ 0 :: rest) = _
    rw [ih (b :: acc) (fun h => hf (by simp [h]))]
    simp

theorem rxSpans_mkStream (frames : List (List Nat)) (garbage : List Nat)
    (hf : ∀ f ∈ frames, (0 : Nat) ∉ f) (hg : (0 : Nat) ∉ garbage) :
    rxSpans (mkStream frames garbage) = frames := by
  induction frames with
  | nil => exact rxSpansAux_no_delim [] garbage hg
  | cons f fs ih =>
    simp only [mkStream, List.foldr_cons]
    rw [show rxSpans (f ++ 0 :: List.foldr (fun f acc => f ++ 0 :: acc) garbage fs)
        = rxSpansAux [] (f ++ 0 :: List.foldr (fun f acc => f ++ 0 :: acc) garbage fs)
      from rfl]
    rw [rxSpansAux_frame [] f _ (hf f (by simp))]
    simp only [List.reverse_nil, List.nil_append]
    have := ih (fun x hx => hf x (by simp [hx]))
    simp only [mkStream] at this
    rw [show rxSpansAux [] (List.foldr (fun f acc => f ++ 0 :: acc) garbage fs)
        = rxSpans (List.foldr (fun f acc => f ++ 0 :: acc) garbage fs) from rfl, this]

/-- **C5** — counterexample to the claim as stated.  The stream
`0x78 ++ 0x7b 0x7d ++ 0x00` contains one delimiter-terminated well-formed
frame (the two-byte object literal, which `json.loads` accepts) preceded by
one garbage byte containing no delimiter.  The receive loop splits at the
delimiter only, so the single raw frame it decodes is the three-byte string
`0x78 0x7b 0x7d` — which fails to decode and is dropped: zero messages are
dispatched, not one.  (The same frame without the garbage byte is decoded
and dispatched.) -/
theorem C5_counterexample :
    jsonDecodeObj [123, 125] = some 1
      ∧ jsonDecodeObj [120, 123, 125] = none
      ∧ rxProcess jsonDecodeObj [120, 123, 125, 0] = []
      ∧ rxProcess jsonDecodeObj [123, 125, 0] = [1] := by
  refine ⟨by decide, by decide, by decide, by decide⟩

/-- **C5** (amended) — for every byte stream consisting of `N`
delimiter-terminated well-formed frames (non-empty, delimiter-free,
successfully decoding) followed by trailing garbage containing no delimiter
byte, the receive loop decodes and dispatches exactly the `N` frames, in
order; garbage preceding a frame inside the same delimiter span instead
makes that span fail decode and be dropped, and the loop continues.  No
decode or dispatch failure alters or truncates the dispatched sequence:
the loop with failing decoder and dispatcher dispatches exactly what the
pure decode of each span yields. -/
theorem C5_theorem :
    (∀ {α : Type} (decode : List Nat → Option α) (frames : List (List Nat))
      (garbage : List Nat),
      (∀ f ∈ frames, f ≠ [] ∧ (0 : Nat) ∉ f ∧ (decode f).isSome = true) →
      (0 : Nat) ∉ garbage →
      rxProcess decode (mkStream frames garbage) = frames.filterMap decode
        ∧ (rxProcess decode (mkStream frames garbage)).length = frames.length)
    ∧ (∀ {α : Type} (decode : List Nat → Except String α)
        (dispatch : α → Except String Unit) (stream : List Nat),
        rxProcessD decode dispatch stream
          = rxProcess (fun f => (decode f).toOption) stream) := by
  constructor
  · intro α decode frames garbage hfr hg
    have hspans : rxSpans (mkStream frames garbage) = frames :=
      rxSpans_mkStream frames garbage (fun f hf => (hfr f hf).2.1) hg
    have hfilter : (rxSpans (mkStream frames garbage)).filter
        (fun f => ¬ f.isEmpty) = frames := by
      rw [hspans]
      rw [List.filter_eq_self]
      intro f hf
      simpa [List.isEmpty_iff] using (hfr f hf).1
    constructor
    · rw [rxProcess, hfilter]
    · rw [rxProcess, hfilter]
      exact filterMap_length_of_all_isSome decode frames
        (fun f hf => (hfr f hf).2.2)
  · intro α decode dispatch stream
    rw [rxProcessD, rxProcess]
    congr 1
    funext f
    cases hd : decode f with
    | error e => simp [hd, Except.toOption]
    | ok m =>
      cases hdp : dispatch m with
      | error e => simp [hd, hdp, Except.toOption]
      | ok u => simp [hd, hdp, Except.toOption]

/-- **C5** — witness: the amended theorem at the one-frame stream with
trailing garbage. -/
theorem C5_witness :
    rxProcess jsonDecodeObj (mkStream [[123, 125]] [120])
        = [[123, 125]].filterMap jsonDecodeObj
      ∧ (rxProcess jsonDecodeObj (mkStream [[123, 125]] [120])).length = 1 := by
  exact C5_theorem.1 jsonDecodeObj [[123, 125]] [120]
    (by intro f hf; simp at hf; subst hf; exact ⟨by decide, by decide, by decide⟩)
    (by decide)

/-- **C8** — counterexample to the claim as stated.  A `_send` call with no
open connection (and network debugging off) raises nothing, logs nothing,
and — like every `_send` call — returns `None`: the caller cannot observe
from the call's result that delivery did not succeed, and no
`TransportError` is returned or raised. -/
theorem C8_counterexample :
    (sendModel false true true false).raised = false
      ∧ (sendModel false true true false).errorLogged = false
      ∧ (sendModel false true true false).wrote = false := by
  decide

/-- **C8** (amended) — `_send` never raises into its caller and always
returns `None`: when no connection is open it returns silently, writing a
diagnostic record only if `DEBUG_NETWORK` is set; when serialization fails
or the socket write fails it writes a diagnostic record and returns; the
message reaches the socket exactly when no failure occurred.  Failures are
thus reported only on the diagnostics channel, never through the call's
result. -/
theorem C8_theorem :
    ∀ sockOpen serializeOk writeOk debugNetwork : Bool,
      (sendModel sockOpen serializeOk writeOk debugNetwork).raised = false
        ∧ ((sendModel sockOpen serializeOk writeOk debugNetwork).wrote = true
            ↔ sockOpen = true ∧ serializeOk = true ∧ writeOk = true)
        ∧ (sockOpen = false →
            (sendModel sockOpen serializeOk writeOk debugNetwork).errorLogged
              = debugNetwork)
        ∧ (sockOpen = true → serializeOk = false ∨ writeOk = false →
            (sendModel sockOpen serializeOk writeOk debugNetwork).errorLogged
              = true) := by
  decide

/-- **C8** — witness: the amended theorem at a failing serialization. -/
theorem C8_witness :
    (sendModel true false true true).errorLogged = true
      ∧ (sendModel true false true true).raised = false := by
  exact ⟨(C8_theorem true false true true).2.2.2 rfl (Or.inl rfl),
    (C8_theorem true false true true).1⟩

/-- **C9** — counterexample to the claim as stated.  From a connected client
with a diagnostic logger and an `on_disconnected` callback wired, calling
`close()` twice invokes the disconnect callback on *both* calls (and closes
the diagnostic logger on both calls): the callback is not invoked exactly
once, so the two-call sequence is observationally different from a single
call. -/
theorem C9_counterexample :
    (closeModel ⟨true, false, true, true⟩).2.disconnectCbInvoked = true
      ∧ (closeModel ((closeModel ⟨true, false, true, true⟩).1)).2.disconnectCbInvoked
          = true
      ∧ (closeModel ((closeModel ⟨true, false, true, true⟩).1)).2.loggerClosed
          = true := by
  decide

/-- **C9** (amended) — `close()` is idempotent on the client state, and the
socket is released exactly once (the second call finds `self.sock` cleared
and does not touch it); but the disconnect callback and the diagnostic
logger's `close` are invoked on every call, so calling `close()` twice
repeats those two effects. -/
theorem C9_theorem :
    ∀ s : ClientState,
      (closeModel (closeModel s).1).1 = (closeModel s).1
        ∧ (closeModel s).2.sockClosed = s.sockOpen
        ∧ (closeModel (closeModel s).1).2.sockClosed = false
        ∧ (closeModel (closeModel s).1).2.disconnectCbInvoked
            = s.hasOnDisconnected
        ∧ (closeModel (closeModel s).1).2.loggerClosed = s.hasDiagLogger := by
  intro s
  exact ⟨rfl, rfl, rfl, rfl, rfl⟩
